import Mathlib

/-!
# Verification of the rotImage skew-correction tool

Shallow embedding of `src/rotImage.cpp`.  The OpenCV decode/encode/warp
capabilities and the filesystem are external collaborators; they are
modelled by an oracle environment `Env`, while every piece of control
flow of the program itself (angle resolution, the zero-angle sentinel,
single-file processing, directory traversal, recursion, iteration-error
handling, and the exit status of `main`) is translated statement by statement
from the C++ source.  Angles (`double` in the source) are modelled as
rationals: the program only ever compares angles for exact equality with
`0.0` and passes them around unchanged, so exact rational arithmetic is
a faithful model of those operations.

The resampling geometry of `rotateImage` (real trigonometry) and the
line-averaging of `determineRotationAngle` are embedded separately over
the reals, mirroring the floating-point formulas of the source at the
real-number level.
-/

set_option autoImplicit false

namespace RotImage

/-- Oracle for the external collaborators (OpenCV and the filesystem):
`decodeOk p` is whether `cv::imread p` yields a non-empty image,
`estAngle p` is the value `determineRotationAngle` computes on the decoded
image at `p` (only consulted when `decodeOk p`), `rotateEmpty p a` is
whether `rotateImage` returns an empty result for the image at `p` and
angle `a`, `encodeOk p` is whether `cv::imwrite` to `p` succeeds,
`isDirectory`/`pathExists`/`createDirOk` model the
`std::filesystem` queries made by `main`, and `incErr d i` is whether
advancing the directory cursor of directory `d` past its `i`-th entry
reports an error. -/
structure Env where
  decodeOk : String → Bool
  estAngle : String → ℚ
  rotateEmpty : String → ℚ → Bool
  encodeOk : String → Bool
  isDirectory : String → Bool
  pathExists : String → Bool
  createDirOk : String → Bool
  incErr : String → Nat → Bool

/-- Observable events of one run: which input paths were handed to
`cv::imread` by `processSingleImage`, which (input, angle) pairs were
handed to `rotateImage`, which output paths were successfully written by
`cv::imwrite`, and how many iteration-error warnings were printed. -/
structure RunLog where
  decoded : List String := []
  rotated : List (String × ℚ) := []
  written : List String := []
  warnings : Nat := 0
deriving DecidableEq, Repr

/-- The empty log. -/
def RunLog.empty : RunLog := {}

/-- Chronological concatenation of two logs. -/
def RunLog.append (a b : RunLog) : RunLog :=
  { decoded := a.decoded ++ b.decoded
    rotated := a.rotated ++ b.rotated
    written := a.written ++ b.written
    warnings := a.warnings + b.warnings }

/-- The extension allow-list of `isImageFile` in the source. -/
def imageExtensions : List String :=
  [".jpg", ".jpeg", ".png", ".bmp", ".tif", ".tiff"]

/-- `isImageFile`: membership of the extension of the path in the fixed list
(the extension itself, `path.extension()`, is computed by the excluded
filesystem collaborator and is carried explicitly on each entry). -/
def isImageFile (ext : String) : Bool :=
  imageExtensions.contains ext

/-- `path(a) / b` rendered as a string, modelling
`std::filesystem::path` concatenation used for entry and output paths. -/
def joinPath (a b : String) : String := a ++ "/" ++ b

/-- `calculateReferenceAngle`: decode the image at the path; on decode
failure set `successful = false` and return `0.0`; otherwise set
`successful = true` and return `determineRotationAngle` of the decoded
image (the oracle field `estAngle`).  The returned pair is
`(successful, angle)`. -/
def calculateReferenceAngle (env : Env) (referenceImagePath : String) : Bool × ℚ :=
  if env.decodeOk referenceImagePath then
    (true, env.estAngle referenceImagePath)
  else
    (false, 0)

/-- `processSingleImage`: return `false` immediately when the angle is
the literal `0.0`; otherwise decode (fail on empty), rotate (fail on
empty result), encode (fail on write error), and return `true`.  The log
records the decode attempt, the rotation performed and the file
written. -/
def processSingleImage (env : Env) (inputFile outputFile : String) (angle : ℚ) :
    Bool × RunLog :=
  if angle = 0 then
    (false, {})
  else
    let l0 : RunLog := { decoded := [inputFile] }
    if env.decodeOk inputFile = false then
      (false, l0)
    else
      let l1 : RunLog := { l0 with rotated := [(inputFile, angle)] }
      if env.rotateEmpty inputFile angle then
        (false, l1)
      else if env.encodeOk outputFile = false then
        (false, l1)
      else
        (true, { l1 with written := [outputFile] })

/-- A directory listing as seen by the traversal, in cursor order: each
entry is a plain file or a subdirectory with its own listing.  `name` is
`path.filename()` and `ext` is `path.extension()` as produced by the
excluded filesystem collaborator (directories can carry an image
extension too, and the source applies `isImageFile` to them as well). -/
inductive Entries where
  | nil : Entries
  | file (name ext : String) (rest : Entries) : Entries
  | dir (name ext : String) (children rest : Entries) : Entries
deriving DecidableEq, Repr

/-- The in-loop angle update of `processDirectory`: when the global
`referenceImagePath` is empty, run `calculateReferenceAngle` on the
entry itself and, if it succeeded, replace the current angle with the
detected one; otherwise keep the current angle. -/
def detectAngle (env : Env) (refPath path : String) (angle : ℚ) : ℚ :=
  if refPath = "" then
    let r := calculateReferenceAngle env path
    if r.1 then r.2 else angle
  else angle

/-- The image-file part of one loop iteration of `processDirectory`:
when the extension of the entry is on the allow-list, resolve the angle with
`detectAngle` and run `processSingleImage` on the entry with the output
path `outputDir / filename`; otherwise do nothing.  Returns
(success, angle now in effect, log of this step). -/
def entryStep (env : Env) (refPath outputDir inputDir name ext : String) (angle : ℚ) :
    Bool × ℚ × RunLog :=
  if isImageFile ext then
    let path := joinPath inputDir name
    let outputFilePath := joinPath outputDir name
    let angle1 := detectAngle env refPath path angle
    let r := processSingleImage env path outputFilePath angle1
    (r.1, angle1, r.2)
  else
    (true, angle, {})

/-- The warning printed after a failed `iter.increment(ec)`: emitted
only when `verbose` is set. -/
def warnLog (verbose : Bool) : RunLog :=
  { warnings := if verbose then 1 else 0 }

/-- The loop of `processDirectory` over the entries of `inputDir`,
starting at cursor position `idx` with the current (mutable in the
source) `angle`.  For each entry: the image step (aborting the whole
call with `false` when it fails); then, when `recursive` is set and the
entry is a directory, a recursive call on the subdirectory with the same
output directory and the current angle whose boolean result is
discarded; then `iter.increment(ec)` — on an iteration error the
iterator becomes the end iterator, a warning is printed when `verbose`,
and the loop exits returning `true`. -/
def processEntries (env : Env) (refPath outputDir : String) (recursive verbose : Bool) :
    String → ℚ → Nat → Entries → Bool × RunLog
  | _, _, _, Entries.nil => (true, {})
  | inputDir, angle, idx, Entries.file name ext rest =>
    let s := entryStep env refPath outputDir inputDir name ext angle
    if s.1 = false then
      (false, s.2.2)
    else if env.incErr inputDir idx then
      (true, s.2.2.append (warnLog verbose))
    else
      let r := processEntries env refPath outputDir recursive verbose
        inputDir s.2.1 (idx + 1) rest
      (r.1, s.2.2.append r.2)
  | inputDir, angle, idx, Entries.dir name ext children rest =>
    let s := entryStep env refPath outputDir inputDir name ext angle
    if s.1 = false then
      (false, s.2.2)
    else
      let sub : RunLog :=
        if recursive then
          (processEntries env refPath outputDir recursive verbose
            (joinPath inputDir name) s.2.1 0 children).2
        else {}
      if env.incErr inputDir idx then
        (true, (s.2.2.append sub).append (warnLog verbose))
      else
        let r := processEntries env refPath outputDir recursive verbose
          inputDir s.2.1 (idx + 1) rest
        (r.1, (s.2.2.append sub).append r.2)

/-- `processDirectory`: the traversal loop started at cursor position 0. -/
def processDirectory (env : Env) (refPath : String) (inputDir outputDir : String)
    (angle : ℚ) (recursive verbose : Bool) (entries : Entries) : Bool × RunLog :=
  processEntries env refPath outputDir recursive verbose inputDir angle 0 entries

/-- The parsed command-line arguments of `main` (after the excluded
argparse collaborator has run): input and output paths, the explicit
angle (default `0.0`), the three boolean flags, and the optional
reference-image path. -/
structure Args where
  input : String
  output : String
  angle : ℚ
  recursive : Bool
  verbose : Bool
  detect : Bool
  reference : Option String
deriving DecidableEq, Repr

/-- The C++ implicit `bool → int` conversion applied by
`return processDirectory(...)` and `return processSingleImage(...)` in
`main`: `true` becomes `1`, `false` becomes `0`. -/
def exitOfBool (b : Bool) : Nat := if b then 1 else 0

/-- `main` after argument parsing: set the global `referenceImagePath`;
if it is non-empty, run `calculateReferenceAngle` on it and, when
successful, overwrite the angle (on failure the explicit angle is kept).
Directory inputs: create the output directory when missing (exit `1` on
failure) and return the boolean of the traversal as the exit status.  File
inputs: when the angle is `0.0` and no reference is set, auto-detect on
the input itself (exit `1` when its decode fails, otherwise adopt the
estimate), then return the boolean of `processSingleImage` as the exit
status.  `entries` is the listing (as a tree) of `args.input` when it is
a directory. -/
def mainRun (env : Env) (args : Args) (entries : Entries) : Nat × RunLog :=
  let referenceImagePath := match args.reference with
    | some r => r
    | none => ""
  let angle := args.angle
  let angle :=
    if referenceImagePath ≠ "" then
      let r := calculateReferenceAngle env referenceImagePath
      if r.1 then r.2 else angle
    else angle
  if env.isDirectory args.input then
    if env.pathExists args.output = false ∧ env.createDirOk args.output = false then
      (1, {})
    else
      let r := processDirectory env referenceImagePath args.input args.output
        angle args.recursive args.verbose entries
      (exitOfBool r.1, r.2)
  else
    if angle = 0 ∧ referenceImagePath = "" then
      let r := calculateReferenceAngle env args.input
      if r.1 = false then
        (1, {})
      else
        let s := processSingleImage env args.input args.output r.2
        (exitOfBool s.1, s.2)
    else
      let s := processSingleImage env args.input args.output angle
      (exitOfBool s.1, s.2)

/-- A detected line segment, `cv::Vec4i` `(x1, y1, x2, y2)` as produced
by `cv::HoughLinesP`. -/
structure Seg where
  x1 : ℤ
  y1 : ℤ
  x2 : ℤ
  y2 : ℤ
deriving DecidableEq, Repr

/-- The averaging core of `determineRotationAngle`: given the detected
segments (the preceding grayscale/blur/Canny/Hough pipeline is the
opaque detector producing them) and the C library function `atan2`, accumulate
`atan2(y2 - y1, x2 - x1)` over all segments, divide by the count when it
is positive, and convert the result from radians to degrees by
multiplying with `180 / π`. -/
noncomputable def determineRotationAngle (atan2 : ℤ → ℤ → ℝ) (lines : List Seg) : ℝ :=
  let angle := (lines.map (fun l => atan2 (l.y2 - l.y1) (l.x2 - l.x1))).sum
  let angle := if 0 < lines.length then angle / lines.length else angle
  angle * (180 / Real.pi)

/-- Degrees to radians, as `cv::getRotationMatrix2D` and
`cv::RotatedRect` convert their degree arguments internally. -/
noncomputable def rad (angle : ℝ) : ℝ := angle * (Real.pi / 180)

/-- Width of `cv::RotatedRect(Point2f(), Size(w, h), angle).boundingRect2f()`:
the exact axis-aligned bounding-box width of a `w × h` rectangle rotated
by `angle` degrees, `w·|cos| + h·|sin|`. -/
noncomputable def bboxW (w h angle : ℝ) : ℝ :=
  w * |Real.cos (rad angle)| + h * |Real.sin (rad angle)|

/-- Height of the same bounding box, `w·|sin| + h·|cos|`. -/
noncomputable def bboxH (w h angle : ℝ) : ℝ :=
  w * |Real.sin (rad angle)| + h * |Real.cos (rad angle)|

/-- The affine transform applied by `rotateImage` to a source pixel
`(x, y)` of a `w × h` image: `cv::getRotationMatrix2D` about the center
`(w/2, h/2)` with scale `1` (matrix rows `[a, b, (1-a)·cx - b·cy]` and
`[-b, a, b·cx + (1-a)·cy]` with `a = cos`, `b = sin` of the degree angle),
with the translation fixup `bbox/2 - size/2` of the source added to the third
column. -/
noncomputable def rotMap (w h angle x y : ℝ) : ℝ × ℝ :=
  let a := Real.cos (rad angle)
  let b := Real.sin (rad angle)
  (a * x + b * y + ((1 - a) * (w / 2) - b * (h / 2)) + (bboxW w h angle / 2 - w / 2),
   -b * x + a * y + (b * (w / 2) + (1 - a) * (h / 2)) + (bboxH w h angle / 2 - h / 2))

/-- `entries` with the contents of every top-level subdirectory removed;
used to state that the verdict of the traversal never depends on what is
inside subdirectories. -/
def pruneDirs : Entries → Entries
  | Entries.nil => Entries.nil
  | Entries.file n e rest => Entries.file n e (pruneDirs rest)
  | Entries.dir n e _ rest => Entries.dir n e Entries.nil (pruneDirs rest)

/-- A world where every decode, rotation and write succeeds, the
estimator always reports `7` degrees, the input path is a plain file and
the cursor never errors. -/
def envAllOk : Env :=
  { decodeOk := fun _ => true
    estAngle := fun _ => 7
    rotateEmpty := fun _ _ => false
    encodeOk := fun _ => true
    isDirectory := fun _ => false
    pathExists := fun _ => true
    createDirOk := fun _ => true
    incErr := fun _ _ => false }

/-- As `envAllOk` but every decode fails. -/
def envDecodeFail : Env := { envAllOk with decodeOk := fun _ => false }

/-- A single-file invocation with explicit angle `90`, no reference. -/
def argsSingle : Args :=
  { input := "in.png", output := "out.png", angle := 90, recursive := false,
    verbose := false, detect := false, reference := none }

/-- As `envAllOk` but the input path `in` is a directory. -/
def envDirOk : Env := { envAllOk with isDirectory := fun p => p == "in" }

/-- As `envDirOk` but every decode fails. -/
def envDirDecodeFail : Env := { envDirOk with decodeOk := fun _ => false }

/-- As `envDirOk` but the output directory is missing and cannot be
created. -/
def envDirNoOutput : Env :=
  { envDirOk with pathExists := fun _ => false, createDirOk := fun _ => false }

/-- A directory invocation on `in` with explicit angle `90`. -/
def argsDir : Args := { argsSingle with input := "in", output := "out" }

/-- A world where only the reference image `ref.png` fails to decode. -/
def envRefBroken : Env := { envAllOk with decodeOk := fun p => !(p == "ref.png") }

/-- `argsSingle` with the reference image `ref.png` supplied. -/
def argsWithRef : Args := { argsSingle with reference := some "ref.png" }

/-- As `envDirOk` but the estimator reports `5` degrees. -/
def envDirDetect : Env := { envDirOk with estAngle := fun _ => 5 }

/-- As `envAllOk` but advancing the cursor of directory `in` past its
first entry reports an error. -/
def envIncErr : Env := { envAllOk with incErr := fun d i => d == "in" && i == 0 }

/-- C4: single-file processing short-circuits with failure — no decode
attempt, no rotation, no output file — exactly when the resolved angle
is the literal `0.0`; for every other angle it proceeds, succeeding and
writing the output exactly when decode, rotation and encode succeed, and
in particular for `360.0` it does not short-circuit. -/
theorem c4_zero_angle_sentinel (env : Env) (inF outF : String) (angle : ℚ) :
    processSingleImage env inF outF 0 = (false, RunLog.empty) ∧
    (processSingleImage env inF outF angle).1 =
      (if angle = 0 then false
       else env.decodeOk inF && !env.rotateEmpty inF angle && env.encodeOk outF) ∧
    (processSingleImage env inF outF angle).2.written =
      (if (processSingleImage env inF outF angle).1 then [outF] else []) ∧
    (processSingleImage env inF outF 360).1 =
      (env.decodeOk inF && !env.rotateEmpty inF 360 && env.encodeOk outF) := by
  refine ⟨rfl, ?_, ?_, ?_⟩
  · unfold processSingleImage
    by_cases h0 : angle = 0
    · simp [h0]
    · simp only [h0, if_false, if_neg h0]
      cases hd : env.decodeOk inF
      · simp [hd]
      · cases hr : env.rotateEmpty inF angle
        · cases he : env.encodeOk outF <;> simp [hd, hr, he]
        · simp [hd, hr]
  · unfold processSingleImage
    by_cases h0 : angle = 0
    · simp [h0]
    · simp only [h0, if_false, if_neg h0]
      cases hd : env.decodeOk inF
      · simp [hd]
      · cases hr : env.rotateEmpty inF angle
        · cases he : env.encodeOk outF <;> simp [hd, hr, he]
        · simp [hd, hr]
  · unfold processSingleImage
    have h0 : ¬ (360 : ℚ) = 0 := by norm_num
    simp only [if_neg h0]
    cases hd : env.decodeOk inF
    · simp [hd]
    · cases hr : env.rotateEmpty inF 360
      · cases he : env.encodeOk outF <;> simp [hd, hr, he]
      · simp [hd, hr]

/-- C1: `main` returns the boolean of `processSingleImage` /
`processDirectory` converted to `int`, so a fully successful run exits
with status `1` and a failed single-file or batch run exits with status
`0` — inverted from the specified convention.  Only the explicit error
paths behave as specified: output-directory creation failure exits `1`,
and a decode failure during single-file auto-detection exits `1`. -/
theorem c1_exit_status_inverted_eval :
    (mainRun envAllOk argsSingle Entries.nil).1 = 1 ∧
    (mainRun envAllOk argsSingle Entries.nil).2.written = ["out.png"] ∧
    (mainRun envDecodeFail argsSingle Entries.nil).1 = 0 ∧
    (mainRun envDecodeFail argsSingle Entries.nil).2.written = [] ∧
    (mainRun envDirOk argsDir (Entries.file "a.png" ".png" Entries.nil)).1 = 1 ∧
    (mainRun envDirOk argsDir (Entries.file "a.png" ".png" Entries.nil)).2.written
      = ["out/a.png"] ∧
    (mainRun envDirDecodeFail argsDir (Entries.file "a.png" ".png" Entries.nil)).1 = 0 ∧
    (mainRun envDirNoOutput argsDir (Entries.file "a.png" ".png" Entries.nil)).1 = 1 := by
  decide

/-- C10: the parsed detect flag (`-d`, long form `--detect`) is never
read after parsing, so two invocations differing only in it produce
identical exit statuses and identical logs in every environment. -/
theorem c10_detect_flag_unread (env : Env) (args : Args) (entries : Entries) (d : Bool) :
    mainRun env { args with detect := d } entries = mainRun env args entries := by
  cases args
  rfl

/-- C2 counterexample: the reference image `ref.png` fails to decode,
yet the run does not fail — the input file is still processed, rotated
by the explicit angle `90` (fallback to the explicit angle argument),
and the output file is written. -/
theorem c2_reference_fallback_counterexample :
    envRefBroken.decodeOk "ref.png" = false ∧
    (mainRun envRefBroken argsWithRef Entries.nil).2.rotated = [("in.png", 90)] ∧
    (mainRun envRefBroken argsWithRef Entries.nil).2.written = ["out.png"] := by
  decide

/-- C2 amended: if the supplied reference image fails to decode, the
explicit angle argument silently remains in effect and the run proceeds:
directories are traversed and single files processed with the explicit
angle, and per-file auto-detection still never runs (the non-empty
reference path disables it), so a zero explicit angle then fails via the
sentinel rather than auto-detecting. -/
theorem c2_amended_explicit_angle_fallback (env : Env) (args : Args) (entries : Entries)
    (ref : String) (h1 : args.reference = some ref) (h2 : ¬ ref = "")
    (h3 : env.decodeOk ref = false) :
    mainRun env args entries =
      (if env.isDirectory args.input then
        if env.pathExists args.output = false ∧ env.createDirOk args.output = false then
          (1, {})
        else
          let r := processDirectory env ref args.input args.output args.angle
            args.recursive args.verbose entries
          (exitOfBool r.1, r.2)
      else
        let s := processSingleImage env args.input args.output args.angle
        (exitOfBool s.1, s.2)) := by
  unfold mainRun
  rw [h1]
  simp only [calculateReferenceAngle, h3, if_neg h2, Bool.false_eq_true, if_false,
    ne_eq, not_false_iff, if_true, h2, false_and, and_false]

/-- C2 amended, witnessed at a broken reference with explicit angle 90. -/
theorem c2_amended_explicit_angle_fallback_witness :
    mainRun envRefBroken argsWithRef Entries.nil =
      (if envRefBroken.isDirectory argsWithRef.input then
        if envRefBroken.pathExists argsWithRef.output = false ∧
            envRefBroken.createDirOk argsWithRef.output = false then
          (1, {})
        else
          let r := processDirectory envRefBroken "ref.png" argsWithRef.input
            argsWithRef.output argsWithRef.angle argsWithRef.recursive
            argsWithRef.verbose Entries.nil
          (exitOfBool r.1, r.2)
      else
        let s := processSingleImage envRefBroken argsWithRef.input argsWithRef.output
          argsWithRef.angle
        (exitOfBool s.1, s.2)) :=
  c2_amended_explicit_angle_fallback envRefBroken argsWithRef Entries.nil "ref.png"
    rfl (by decide) (by decide)

/-- C3 counterexample: directory mode, no reference, explicit angle
`90`, one image entry that decodes and whose auto-detection estimates
`5`: the file is rotated by `5`, not by the literal explicit angle
`90` — per-file auto-detection runs and overrides the explicit angle. -/
theorem c3_explicit_angle_counterexample :
    argsDir.reference = none ∧
    argsDir.angle = 90 ∧
    (mainRun envDirDetect argsDir (Entries.file "a.png" ".png" Entries.nil)).2.rotated
      = [("in/a.png", 5)] ∧
    (5 : ℚ) ≠ 90 := by
  decide

/-- C3 amended: with no reference and a non-zero explicit angle, the
literal explicit angle is used only in single-file mode (where
auto-detection indeed never runs); in directory mode per-file
auto-detection runs for every image entry whenever no reference is
supplied, regardless of the explicit angle, and its estimate replaces
the in-effect angle for every entry that decodes. -/
theorem c3_amended_batch_detect_overrides (env : Env) (args : Args) (entries : Entries)
    (inDir outDir name ext : String) (angle : ℚ)
    (href : args.reference = none) (hang : ¬ args.angle = 0)
    (hfile : env.isDirectory args.input = false)
    (himg : isImageFile ext = true)
    (hdec : env.decodeOk (joinPath inDir name) = true) :
    mainRun env args entries =
      (exitOfBool (processSingleImage env args.input args.output args.angle).1,
       (processSingleImage env args.input args.output args.angle).2) ∧
    (entryStep env "" outDir inDir name ext angle).2.1 = env.estAngle (joinPath inDir name) := by
  constructor
  · simp [mainRun, href, hfile, hang]
  · simp [entryStep, detectAngle, calculateReferenceAngle, himg, hdec]

/-- C3 amended, witnessed in a world where the input is a plain file,
the explicit angle is `90`, and a directory entry decodes with
estimate `7`. -/
theorem c3_amended_batch_detect_overrides_witness :
    mainRun envAllOk argsSingle Entries.nil =
      (exitOfBool (processSingleImage envAllOk argsSingle.input argsSingle.output
          argsSingle.angle).1,
       (processSingleImage envAllOk argsSingle.input argsSingle.output
          argsSingle.angle).2) ∧
    (entryStep envAllOk "" "out" "in" "a.png" ".png" 90).2.1
      = envAllOk.estAngle (joinPath "in" "a.png") :=
  c3_amended_batch_detect_overrides envAllOk argsSingle Entries.nil "in" "out"
    "a.png" ".png" 90 rfl (by decide) (by decide) (by decide) (by decide)

/-- C7: the boolean verdict of a traversal never depends on the contents
of subdirectories — the result of the recursive call is discarded — so
replacing the listing of every subdirectory by the empty listing leaves the
verdict unchanged; in particular a failure inside a recursive descent
neither aborts the parent traversal nor changes the returned
success. -/
theorem c7_subdir_result_discarded (env : Env) (refPath outDir : String)
    (recursive verbose : Bool) (inDir : String) (angle : ℚ) (idx : Nat)
    (entries : Entries) :
    (processEntries env refPath outDir recursive verbose inDir angle idx entries).1 =
    (processEntries env refPath outDir recursive verbose inDir angle idx
      (pruneDirs entries)).1 := by
  induction entries generalizing inDir angle idx with
  | nil => rfl
  | file name ext rest ih =>
    unfold pruneDirs processEntries
    by_cases hs : (entryStep env refPath outDir inDir name ext angle).1 = false
    · simp [hs]
    · by_cases hi : env.incErr inDir idx = true
      · simp [hs, hi]
      · simp [hs, hi, ih]
  | dir name ext children rest ihc ihr =>
    unfold pruneDirs processEntries
    by_cases hs : (entryStep env refPath outDir inDir name ext angle).1 = false
    · simp [hs]
    · by_cases hi : env.incErr inDir idx = true
      · simp [hs, hi]
      · simp [hs, hi, ihr]

/-- C8 counterexample: after the first entry of `in` is processed, the
cursor advance fails; the second entry is a perfectly processable image,
yet it is never decoded, rotated or written — the traversal does not
continue with the next entry of the directory; it stops and reports
success for the entries processed so far. -/
theorem c8_iteration_error_counterexample :
    envIncErr.decodeOk "in/b.png" = true ∧
    processEntries envIncErr "ref" "out" false false "in" 90 0
        (Entries.file "a.png" ".png" (Entries.file "b.png" ".png" Entries.nil)) =
      (true, { decoded := ["in/a.png"], rotated := [("in/a.png", 90)],
               written := ["out/a.png"], warnings := 0 }) := by
  decide

/-- C8 amended: a filesystem error while advancing the cursor is caught
rather than aborting (the call still returns, with verdict `true`), and
the warning is printed only when verbose; but the iterator becomes the
end iterator, so the traversal of that directory stops: the result is
the same whatever entries remain, instead of continuing with the next
entry. -/
theorem c8_amended_iteration_error_stops (env : Env) (refPath outDir : String)
    (recursive verbose : Bool) (inDir : String) (angle : ℚ) (idx : Nat)
    (name ext : String) (children rest rest2 : Entries)
    (hinc : env.incErr inDir idx = true)
    (hok : (entryStep env refPath outDir inDir name ext angle).1 = true) :
    (processEntries env refPath outDir recursive verbose inDir angle idx
        (Entries.file name ext rest) =
      processEntries env refPath outDir recursive verbose inDir angle idx
        (Entries.file name ext rest2)) ∧
    (processEntries env refPath outDir recursive verbose inDir angle idx
        (Entries.file name ext rest)).1 = true ∧
    (processEntries env refPath outDir recursive verbose inDir angle idx
        (Entries.file name ext rest)).2.warnings =
      (entryStep env refPath outDir inDir name ext angle).2.2.warnings
        + (if verbose then 1 else 0) ∧
    (processEntries env refPath outDir recursive verbose inDir angle idx
        (Entries.dir name ext children rest) =
      processEntries env refPath outDir recursive verbose inDir angle idx
        (Entries.dir name ext children rest2)) := by
  unfold processEntries
  simp [hok, hinc, RunLog.append, warnLog]

/-- C8 amended, witnessed: with the cursor error after the first of two
entries and verbose set, the run is the same as with the second entry
absent, succeeds, and logs exactly one warning. -/
theorem c8_amended_iteration_error_stops_witness :
    (processEntries envIncErr "ref" "out" false true "in" 90 0
        (Entries.file "a.png" ".png" (Entries.file "b.png" ".png" Entries.nil)) =
      processEntries envIncErr "ref" "out" false true "in" 90 0
        (Entries.file "a.png" ".png" Entries.nil)) ∧
    (processEntries envIncErr "ref" "out" false true "in" 90 0
        (Entries.file "a.png" ".png" (Entries.file "b.png" ".png" Entries.nil))).1
      = true ∧
    (processEntries envIncErr "ref" "out" false true "in" 90 0
        (Entries.file "a.png" ".png" (Entries.file "b.png" ".png" Entries.nil))).2.warnings =
      (entryStep envIncErr "ref" "out" "in" "a.png" ".png" 90).2.2.warnings
        + (if true then 1 else 0) ∧
    (processEntries envIncErr "ref" "out" false true "in" 90 0
        (Entries.dir "a.png" ".png" Entries.nil
          (Entries.file "b.png" ".png" Entries.nil)) =
      processEntries envIncErr "ref" "out" false true "in" 90 0
        (Entries.dir "a.png" ".png" Entries.nil Entries.nil)) :=
  c8_amended_iteration_error_stops envIncErr "ref" "out" false true "in" 90 0
    "a.png" ".png" Entries.nil (Entries.file "b.png" ".png" Entries.nil) Entries.nil
    (by decide) (by decide)

/-- C9: when the image step for the entry under the cursor fails (angle
sentinel, decode, rotate or encode failure), the traversal call returns
`false` at once with exactly the log of that step: no later entry of the
listing is touched, and for a directory entry not even its own children
are descended into. -/
theorem c9_abort_on_file_failure (env : Env) (refPath outDir : String)
    (recursive verbose : Bool) (inDir : String) (angle : ℚ) (idx : Nat)
    (name ext : String) (children rest : Entries)
    (hfail : (entryStep env refPath outDir inDir name ext angle).1 = false) :
    processEntries env refPath outDir recursive verbose inDir angle idx
        (Entries.file name ext rest) =
      (false, (entryStep env refPath outDir inDir name ext angle).2.2) ∧
    processEntries env refPath outDir recursive verbose inDir angle idx
        (Entries.dir name ext children rest) =
      (false, (entryStep env refPath outDir inDir name ext angle).2.2) := by
  unfold processEntries
  simp [hfail]

/-- C9, witnessed in a world where every decode fails: processing of the
first entry fails and the traversal aborts with just the log of that entry. -/
theorem c9_abort_on_file_failure_witness :
    processEntries envDecodeFail "ref" "out" false false "in" 90 0
        (Entries.file "a.png" ".png" (Entries.file "b.png" ".png" Entries.nil)) =
      (false, (entryStep envDecodeFail "ref" "out" "in" "a.png" ".png" 90).2.2) ∧
    processEntries envDecodeFail "ref" "out" false false "in" 90 0
        (Entries.dir "a.png" ".png" (Entries.file "c.png" ".png" Entries.nil)
          (Entries.file "b.png" ".png" Entries.nil)) =
      (false, (entryStep envDecodeFail "ref" "out" "in" "a.png" ".png" 90).2.2) :=
  c9_abort_on_file_failure envDecodeFail "ref" "out" false false "in" 90 0
    "a.png" ".png" (Entries.file "c.png" ".png" Entries.nil)
    (Entries.file "b.png" ".png" Entries.nil) (by decide)

/-- C6: the estimator is total; on an empty segment set it returns
exactly `0.0`, and on a non-empty set it returns the unweighted
arithmetic mean of the segment orientations `atan2(dy, dx)` converted to
degrees. -/
theorem c6_estimator_mean_of_orientations (atan2 : ℤ → ℤ → ℝ) (lines : List Seg) :
    (lines = [] → determineRotationAngle atan2 lines = 0) ∧
    (lines ≠ [] →
      determineRotationAngle atan2 lines =
        ((lines.map (fun l => atan2 (l.y2 - l.y1) (l.x2 - l.x1))).sum / lines.length)
          * (180 / Real.pi)) := by
  constructor
  · intro h
    subst h
    simp [determineRotationAngle]
  · intro h
    have hlen : 0 < lines.length := List.length_pos.mpr h
    unfold determineRotationAngle
    simp [hlen]

/-- C6, witnessed at the empty segment set and at a one-segment set. -/
theorem c6_estimator_mean_of_orientations_witness :
    determineRotationAngle (fun _ _ => (1 : ℝ)) [] = 0 ∧
    determineRotationAngle (fun _ _ => (1 : ℝ)) [⟨0, 0, 1, 1⟩] =
      ((([⟨0, 0, 1, 1⟩] : List Seg).map
          (fun l => (fun _ _ => (1 : ℝ)) (l.y2 - l.y1) (l.x2 - l.x1))).sum
        / ([⟨0, 0, 1, 1⟩] : List Seg).length) * (180 / Real.pi) :=
  ⟨(c6_estimator_mean_of_orientations (fun _ _ => 1) []).1 rfl,
   (c6_estimator_mean_of_orientations (fun _ _ => 1) [⟨0, 0, 1, 1⟩]).2 (by simp)⟩

/-- C5 counterexample: at `θ = 90°` (not a multiple of `180°`) a `2 × 1`
source yields a bounding-box canvas of width `1 < 2`: the canvas
dimensions are not always at least the source dimensions away from
multiples of `180°`. -/
theorem c5_canvas_width_counterexample :
    bboxW 2 1 90 = 1 ∧ bboxW 2 1 90 < 2 := by
  have hr : rad 90 = Real.pi / 2 := by
    unfold rad
    ring
  constructor <;>
  · unfold bboxW
    rw [hr, Real.cos_pi_div_two, Real.sin_pi_div_two]
    norm_num

/-- Bounding a linear combination by the bounds of its arguments. -/
theorem abs_linear_comb_le (a b u v W H : ℝ) (hu : |u| ≤ W) (hv : |v| ≤ H) :
    |a * u + b * v| ≤ |a| * W + |b| * H := by
  calc |a * u + b * v| ≤ |a * u| + |b * v| := abs_add _ _
    _ = |a| * |u| + |b| * |v| := by rw [abs_mul, abs_mul]
    _ ≤ |a| * W + |b| * H := by
      have h1 : |a| * |u| ≤ |a| * W := mul_le_mul_of_nonneg_left hu (abs_nonneg a)
      have h2 : |b| * |v| ≤ |b| * H := mul_le_mul_of_nonneg_left hv (abs_nonneg b)
      linarith

/-- C5 amended: the destination canvas is the axis-aligned bounding box
of the source rectangle rotated by `θ` about its center, so no source
content is cropped (every source point maps inside the canvas) and the
rotated content is centered (the source center maps to the canvas
center), and the canvas area is at least the source area; but an
individual canvas dimension can be smaller than the corresponding source
dimension (a `90°` rotation swaps the sides of a non-square source). -/
theorem c5_amended_no_crop_centered (w h angle x y : ℝ)
    (hx0 : 0 ≤ x) (hxw : x ≤ w) (hy0 : 0 ≤ y) (hyh : y ≤ h) :
    (0 ≤ (rotMap w h angle x y).1 ∧ (rotMap w h angle x y).1 ≤ bboxW w h angle) ∧
    (0 ≤ (rotMap w h angle x y).2 ∧ (rotMap w h angle x y).2 ≤ bboxH w h angle) ∧
    rotMap w h angle (w / 2) (h / 2) = (bboxW w h angle / 2, bboxH w h angle / 2) ∧
    w * h ≤ bboxW w h angle * bboxH w h angle := by
  have hxc : |x - w / 2| ≤ w / 2 := abs_le.mpr ⟨by linarith, by linarith⟩
  have hyc : |y - h / 2| ≤ h / 2 := abs_le.mpr ⟨by linarith, by linarith⟩
  have hcs : Real.cos (rad angle) ^ 2 + Real.sin (rad angle) ^ 2 = 1 :=
    Real.cos_sq_add_sin_sq (rad angle)
  refine ⟨?_, ?_, ?_, ?_⟩
  · have hb := abs_linear_comb_le (Real.cos (rad angle)) (Real.sin (rad angle))
      (x - w / 2) (y - h / 2) (w / 2) (h / 2) hxc hyc
    have hform : (rotMap w h angle x y).1 - bboxW w h angle / 2 =
        Real.cos (rad angle) * (x - w / 2) + Real.sin (rad angle) * (y - h / 2) := by
      unfold rotMap bboxW
      ring
    have hb2 : |(rotMap w h angle x y).1 - bboxW w h angle / 2| ≤ bboxW w h angle / 2 := by
      rw [hform]
      calc |Real.cos (rad angle) * (x - w / 2) + Real.sin (rad angle) * (y - h / 2)|
          ≤ |Real.cos (rad angle)| * (w / 2) + |Real.sin (rad angle)| * (h / 2) := hb
        _ = bboxW w h angle / 2 := by
          unfold bboxW
          ring
    have := abs_le.mp hb2
    constructor <;> linarith [this.1, this.2]
  · have hb := abs_linear_comb_le (-Real.sin (rad angle)) (Real.cos (rad angle))
      (x - w / 2) (y - h / 2) (w / 2) (h / 2) hxc hyc
    have hform : (rotMap w h angle x y).2 - bboxH w h angle / 2 =
        -Real.sin (rad angle) * (x - w / 2) + Real.cos (rad angle) * (y - h / 2) := by
      unfold rotMap bboxH
      ring
    have hb2 : |(rotMap w h angle x y).2 - bboxH w h angle / 2| ≤ bboxH w h angle / 2 := by
      rw [hform]
      calc |-Real.sin (rad angle) * (x - w / 2) + Real.cos (rad angle) * (y - h / 2)|
          ≤ |-Real.sin (rad angle)| * (w / 2) + |Real.cos (rad angle)| * (h / 2) := hb
        _ = bboxH w h angle / 2 := by
          rw [abs_neg]
          unfold bboxH
          ring
    have := abs_le.mp hb2
    constructor <;> linarith [this.1, this.2]
  · unfold rotMap
    rw [Prod.ext_iff]
    constructor <;> · simp only []; ring
  · have key : bboxW w h angle * bboxH w h angle =
        w * h * (|Real.cos (rad angle)| ^ 2 + |Real.sin (rad angle)| ^ 2) +
          |Real.cos (rad angle)| * |Real.sin (rad angle)| * (w ^ 2 + h ^ 2) := by
      unfold bboxW bboxH
      ring
    rw [sq_abs, sq_abs, hcs] at key
    have hnn : 0 ≤ |Real.cos (rad angle)| * |Real.sin (rad angle)| * (w ^ 2 + h ^ 2) := by
      have := mul_nonneg (abs_nonneg (Real.cos (rad angle))) (abs_nonneg (Real.sin (rad angle)))
      have h2 : (0 : ℝ) ≤ w ^ 2 + h ^ 2 := by positivity
      exact mul_nonneg this h2
    nlinarith [key, hnn]

/-- C5 amended, witnessed at a `2 × 1` source, `θ = 90°` and the source
point `(1, 0)`. -/
theorem c5_amended_no_crop_centered_witness :
    ((0 : ℝ) ≤ 1 ∧ (1 : ℝ) ≤ 2 ∧ (0 : ℝ) ≤ 0 ∧ (0 : ℝ) ≤ 1) ∧
    ((0 ≤ (rotMap 2 1 90 1 0).1 ∧ (rotMap 2 1 90 1 0).1 ≤ bboxW 2 1 90) ∧
     (0 ≤ (rotMap 2 1 90 1 0).2 ∧ (rotMap 2 1 90 1 0).2 ≤ bboxH 2 1 90) ∧
     rotMap 2 1 90 (2 / 2) (1 / 2) = (bboxW 2 1 90 / 2, bboxH 2 1 90 / 2) ∧
     (2 : ℝ) * 1 ≤ bboxW 2 1 90 * bboxH 2 1 90) :=
  ⟨by norm_num,
   c5_amended_no_crop_centered 2 1 90 1 0 (by norm_num) (by norm_num)
     (by norm_num) (by norm_num)⟩

end RotImage
